import Mathlib

/-!
Shallow embedding of `src/streamlit_app.py` (breast-cancer SNP risk
prediction tool) and verification of its specification claims.

Numeric scores are modelled as rationals (exact comparisons, as the spec
requires exact boundary handling).  Python `None` is modelled as `Option`;
Python exceptions caught by `try/except` are modelled by the functions
returning `none`; HTTP responses are modelled as explicit outcome values
(`error` for a raised network error or timeout, `resp status body` for a
received response whose JSON body already parsed to `body`).
-/

namespace BCRisk

/-! ## Risk classifier (`label_risk`, lines 34-41) -/

def label_risk (score : ℚ) : String :=
  if score ≥ 1/100 then "🟥 High"
  else if score > 0 then "🟧 Moderate"
  else "🟩 Low"

/-! ## Recommendation engine (`get_recommendation`, lines 107-125)

Python signature: `get_recommendation(impact, clin_sig)` where `clin_sig`
may be `None`; the body does `clin_sig = (clin_sig or "").lower()` and then
compares `impact` case-sensitively against "HIGH" / "MODERATE" and the
lowered `clin_sig` against the two pathogenic strings. -/

def highRiskText : String :=
  "🔴 This variant is classified as high impact or clinically pathogenic. Referral to a clinical geneticist is recommended. Consider confirmatory testing, comprehensive family history assessment, and risk-reducing strategies based on guidelines."

def moderateRiskText : String :=
  "🟠 This variant is predicted to have moderate functional impact. Periodic surveillance and stratified risk assessment based on personal and family history are advised."

def lowRiskText : String :=
  "🟢 No strong evidence of clinical pathogenicity is currently associated with this variant. Routine follow-up is appropriate. Recommend re-evaluation if new evidence emerges or if patient has elevated familial risk."

/-- Python's ASCII `str.lower()` on one character: A-Z map to a-z. -/
def pyLowerChar (c : Char) : Char :=
  if 'A' ≤ c ∧ c ≤ 'Z' then Char.ofNat (c.toNat + 32) else c

/-- Python's `str.lower()` (the strings compared are ASCII). -/
def pyLower (s : String) : String := ⟨s.data.map pyLowerChar⟩

def get_recommendation (impact : String) (clin_sig : Option String) : String :=
  if impact = "HIGH" ∨ pyLower (clin_sig.getD "") = "pathogenic" ∨
      pyLower (clin_sig.getD "") = "likely_pathogenic" then
    highRiskText
  else if impact = "MODERATE" then
    moderateRiskText
  else
    lowRiskText

/-! ## HTTP outcomes

An external GET either raises (network error, timeout, JSON decode error —
all caught by the bare `except`) or yields a status code and a parsed JSON
body. -/

inductive HttpOutcome (β : Type) where
  | error : HttpOutcome β
  | resp (status : ℕ) (body : β) : HttpOutcome β

/-! ## Variant resolver (`map_to_rsid`, lines 44-54)

`r.json()` is a JSON array of overlap records; the code reads
`r.json()[0]["id"]`.  A record's `id` field is `Option String`: a missing
key raises `KeyError`, caught by the bare `except`, hence `none`.  The
Python truthiness test `r.json()` is emptiness of the array. -/

structure RegionEntry where
  id : Option String

def map_to_rsid (o : HttpOutcome (List RegionEntry)) : Option String :=
  match o with
  | .error => none
  | .resp status body =>
    if status = 200 then
      match body with
      | [] => none
      | e :: _ => e.id
    else none

/-! ## Variant fetcher (`get_variant_info`, lines 59-76)

The VEP response body is a JSON array; the code reads `data[0]`, then
`data[0].get('transcript_consequences', [{}])[0]` and
`data[0].get('clinical_significance', ['Not reported'])[0]`.  `Option` on a
field models key absence (where `.get` supplies the default); indexing `[0]`
into a PRESENT but EMPTY list raises `IndexError`, caught by the bare
`except`, hence `none`. -/

structure TranscriptConsequence where
  gene_symbol : Option String
  impact : Option String
  consequence_terms : Option (List String)

/-- The `{}` fallback used when the `transcript_consequences` key is absent. -/
def emptyTC : TranscriptConsequence := ⟨none, none, none⟩

structure VepEntry where
  transcript_consequences : Option (List TranscriptConsequence)
  clinical_significance : Option (List String)

structure VariantInfo where
  rsID : String
  gene : String
  impact : String
  effect : String
  clinSig : String

def get_variant_info (rsid : String) (o : HttpOutcome (List VepEntry)) :
    Option VariantInfo :=
  match o with
  | .error => none
  | .resp status body =>
    if status ≠ 200 then none
    else
      match body with
      | [] => none
      | entry :: _ =>
        match entry.transcript_consequences.getD [emptyTC] with
        | [] => none
        | tc :: _ =>
          match tc.consequence_terms.getD ["Unknown"] with
          | [] => none
          | eff :: _ =>
            match entry.clinical_significance.getD ["Not reported"] with
            | [] => none
            | cs :: _ =>
              some ⟨rsid, tc.gene_symbol.getD "Unknown",
                tc.impact.getD "Unknown", eff, cs⟩

/-! ## Dataset loader (lines 7-8)

`df.dropna(subset=["Chromosome", "Positionb", "EAFc",
"Overall Breast Cancerd"])` — note the subset names exactly FOUR columns;
the ER columns are not in it.  A cell is `Option ℚ` (`none` = null/NaN). -/

structure Row where
  chromosome : Option ℚ
  positionb : Option ℚ
  eafc : Option ℚ
  overallBC : Option ℚ
  erPositive : Option ℚ
  erNegative : Option ℚ

def dropnaRequired (rows : List Row) : List Row :=
  rows.filter fun r =>
    r.chromosome.isSome && r.positionb.isSome && r.eafc.isSome &&
      r.overallBC.isSome

/-! ## Sample selection and prediction (lines 20-32)

`st.number_input(min_value=0, max_value=len(df)-1, ...)` constrains the
index to that closed interval; out-of-range input is rejected by the widget
before `df.iloc` or `model.predict` runs.  `number_input` models the
rejection as `none`. -/

def number_input (minv maxv val : ℤ) : Option ℤ :=
  if minv ≤ val ∧ val ≤ maxv then some val else none

def selectSample (rows : List Row) (idx : ℤ) : Option Row :=
  match number_input 0 ((rows.length : ℤ) - 1) idx with
  | none => none
  | some i => rows.get? i.toNat

/-- The feature vector, in the fixed model order
["Chromosome", "Positionb", "EAFc", "ER-positivee", "ER-negativef"]. -/
def featureVector (r : Row) : List (Option ℚ) :=
  [r.chromosome, r.positionb, r.eafc, r.erPositive, r.erNegative]

def predictFor (pred : List (Option ℚ) → ℚ) (rows : List Row) (idx : ℤ) :
    Option ℚ :=
  (selectSample rows idx).map fun r => pred (featureVector r)

/-! ## Memoised resolver (`@st.cache_data` on `map_to_rsid`, lines 44-45)

The decorator memoises the wrapped call per distinct argument tuple for the
process lifetime.  Modelled as an explicit association-list cache keyed on
(chromosome, position), with an explicit count of underlying network
calls. -/

abbrev RsidCache := List ((ℤ × ℤ) × Option String)

def cacheLookup : RsidCache → ℤ × ℤ → Option (Option String)
  | [], _ => none
  | (k, v) :: rest, key => if k = key then some v else cacheLookup rest key

structure ResolveOutcome where
  result : Option String
  cache : RsidCache
  networkCalls : ℕ

def resolveCached (net : ℤ × ℤ → Option String) (c : RsidCache) (k : ℤ × ℤ) :
    ResolveOutcome :=
  match cacheLookup c k with
  | some v => ⟨v, c, 0⟩
  | none => ⟨net k, (k, net k) :: c, 1⟩

/-! ## Orchestration (lines 78 and 127-131)

`variant = get_variant_info(rsid) if rsid else None`: the fetcher runs only
when `rsid` is truthy (not `None` and not the empty string); the second
component counts fetcher invocations.  The display shows either the
recommendation text (`st.success`) or the distinct no-recommendation info
state. -/

def variantStep (fetch : String → Option VariantInfo) (rsid : Option String) :
    Option VariantInfo × ℕ :=
  match rsid with
  | none => (none, 0)
  | some s => if s = "" then (none, 0) else (fetch s, 1)

inductive RecDisplay where
  | noRecommendation : RecDisplay
  | recommended (text : String) : RecDisplay

def displayRecommendation (variant : Option VariantInfo) : RecDisplay :=
  match variant with
  | none => .noRecommendation
  | some v => .recommended (get_recommendation v.impact (some v.clinSig))

/-- A fully populated row, used as a concrete dataset row. -/
def fullRow : Row := ⟨some 1, some 100000, some (1/5), some 1, some 1, some 0⟩

/-- A row whose ER-positive cell is null but whose four `dropna`-subset
cells are all populated. -/
def erNullRow : Row := ⟨some 1, some 100000, some (1/5), some 1, none, some 0⟩

end BCRisk

namespace BCRisk

/-- C1: for every score s, `label_risk` returns High iff s ≥ 0.01,
Moderate iff 0 < s < 0.01, Low iff s ≤ 0; in particular
classify(0.01)=High, classify(0)=Low, and negatives map to Low. -/
theorem label_risk_spec (s : ℚ) :
    (label_risk s = "🟥 High" ↔ s ≥ 1/100) ∧
    (label_risk s = "🟧 Moderate" ↔ 0 < s ∧ s < 1/100) ∧
    (label_risk s = "🟩 Low" ↔ s ≤ 0) ∧
    label_risk (1/100) = "🟥 High" ∧ label_risk 0 = "🟩 Low" ∧
    (s < 0 → label_risk s = "🟩 Low") := by
  have hmain : (label_risk s = "🟥 High" ↔ s ≥ 1/100) ∧
      (label_risk s = "🟧 Moderate" ↔ 0 < s ∧ s < 1/100) ∧
      (label_risk s = "🟩 Low" ↔ s ≤ 0) := by
    unfold label_risk
    split_ifs with h1 h2
    · exact ⟨⟨fun _ => h1, fun _ => rfl⟩,
        ⟨fun h => absurd h (by decide), fun h => absurd h1 (not_le.mpr h.2)⟩,
        ⟨fun h => absurd h (by decide),
         fun hle => absurd (lt_of_lt_of_le (by norm_num : (0:ℚ) < 1/100) h1)
           (not_lt.mpr hle)⟩⟩
    · exact ⟨⟨fun h => absurd h (by decide), fun h => absurd h h1⟩,
        ⟨fun _ => ⟨h2, lt_of_not_le h1⟩, fun _ => rfl⟩,
        ⟨fun h => absurd h (by decide), fun hle => absurd h2 (not_lt.mpr hle)⟩⟩
    · exact ⟨⟨fun h => absurd h (by decide), fun h => absurd h h1⟩,
        ⟨fun h => absurd h (by decide), fun h => absurd h.1 h2⟩,
        ⟨fun _ => le_of_not_lt h2, fun _ => rfl⟩⟩
  exact ⟨hmain.1, hmain.2.1, hmain.2.2, by norm_num [label_risk],
    by norm_num [label_risk], fun hneg => hmain.2.2.mpr (le_of_lt hneg)⟩

/-- C2 counterexample: the claim says impact is compared case-insensitively,
so `get_recommendation "high" "benign"` should return the high-risk text; in
the code the impact comparison is case-sensitive (`impact == "HIGH"`), and
this call returns the low-risk text instead. -/
theorem get_recommendation_case_counterexample :
    get_recommendation "high" (some "benign") = lowRiskText ∧
    lowRiskText ≠ highRiskText := by
  exact ⟨rfl, by decide⟩

/-- C2 (amended): the recommendation engine is a pure function of
(impact, clinicalSignificance) with first-match-wins order, where impact is
compared case-SENSITIVELY (it must equal exactly "HIGH" / "MODERATE") and
only clinicalSignificance is lowered before comparison: it returns the
high-risk text iff impact = "HIGH" or lower(sig) is "pathogenic" or
"likely_pathogenic"; otherwise the moderate text iff impact = "MODERATE";
otherwise the low-risk/routine text. -/
theorem get_recommendation_spec (impact cs : String) :
    (get_recommendation impact (some cs) = highRiskText ↔
      impact = "HIGH" ∨ pyLower cs = "pathogenic" ∨
        pyLower cs = "likely_pathogenic") ∧
    (get_recommendation impact (some cs) = moderateRiskText ↔
      ¬(impact = "HIGH" ∨ pyLower cs = "pathogenic" ∨
          pyLower cs = "likely_pathogenic") ∧ impact = "MODERATE") ∧
    (get_recommendation impact (some cs) = lowRiskText ↔
      ¬(impact = "HIGH" ∨ pyLower cs = "pathogenic" ∨
          pyLower cs = "likely_pathogenic") ∧ impact ≠ "MODERATE") := by
  unfold get_recommendation
  simp only [Option.getD]
  split_ifs with h1 h2
  · exact ⟨⟨fun _ => h1, fun _ => rfl⟩,
      ⟨fun h => absurd h (by decide), fun h => absurd h1 h.1⟩,
      ⟨fun h => absurd h (by decide), fun h => absurd h1 h.1⟩⟩
  · exact ⟨⟨fun h => absurd h (by decide), fun h => absurd h h1⟩,
      ⟨fun _ => ⟨h1, h2⟩, fun _ => rfl⟩,
      ⟨fun h => absurd h (by decide), fun h => absurd h2 h.2⟩⟩
  · exact ⟨⟨fun h => absurd h (by decide), fun h => absurd h h1⟩,
      ⟨fun h => absurd h (by decide), fun h => absurd h.2 h2⟩,
      ⟨fun _ => ⟨h1, h2⟩, fun _ => rfl⟩⟩

/-- C9: the recommendation engine is total: a `None` clinical significance is
treated as the empty string (`clin_sig or ""`), the call always returns one
of the three texts (it never raises), and the all-placeholder pair
("Unknown" impact, "Not reported" significance) falls through to the
low-risk/routine branch. -/
theorem get_recommendation_none_total (impact : String) :
    get_recommendation impact none = get_recommendation impact (some "") ∧
    (get_recommendation impact none = highRiskText ∨
     get_recommendation impact none = moderateRiskText ∨
     get_recommendation impact none = lowRiskText) ∧
    get_recommendation "Unknown" (some "Not reported") = lowRiskText := by
  refine ⟨rfl, ?_, rfl⟩
  unfold get_recommendation
  split_ifs
  · exact Or.inl rfl
  · exact Or.inr (Or.inl rfl)
  · exact Or.inr (Or.inr rfl)

end BCRisk

namespace BCRisk

/-- C3 counterexample: the claim says that when the transcript-consequences
list is empty, gene/impact/effect default to "Unknown" rather than the
lookup returning none; in the code a PRESENT but EMPTY
`transcript_consequences` list makes `[...][0]` raise `IndexError`, the
bare `except` catches it, and the whole lookup returns `None`. -/
theorem get_variant_info_empty_tc_counterexample :
    get_variant_info "rs123"
      (HttpOutcome.resp 200 [(⟨some [], none⟩ : VepEntry)]) = none := rfl

/-- C3 (amended): on a successful response, a missing (absent-key)
transcript-consequences field makes gene, impact and effect all default to
"Unknown" and an absent clinical-significance field defaults to
"Not reported", the lookup still returning a record; but a present and
EMPTY transcript-consequences list makes the whole lookup return none. -/
theorem get_variant_info_defaults (rsid : String) (e : VepEntry)
    (rest : List VepEntry) :
    (e.transcript_consequences = none → e.clinical_significance = none →
      get_variant_info rsid (HttpOutcome.resp 200 (e :: rest)) =
        some ⟨rsid, "Unknown", "Unknown", "Unknown", "Not reported"⟩) ∧
    (e.transcript_consequences = some [] →
      get_variant_info rsid (HttpOutcome.resp 200 (e :: rest)) = none) := by
  constructor
  · intro h1 h2
    simp [get_variant_info, h1, h2, emptyTC]
  · intro h1
    simp [get_variant_info, h1]

/-- Witness for C3's amended theorem at concrete entries. -/
theorem get_variant_info_defaults_witness :
    get_variant_info "rs42"
      (HttpOutcome.resp 200 [(⟨none, none⟩ : VepEntry)]) =
      some ⟨"rs42", "Unknown", "Unknown", "Unknown", "Not reported"⟩ ∧
    get_variant_info "rs42"
      (HttpOutcome.resp 200 [(⟨some [], some ["benign"]⟩ : VepEntry)]) =
      none := by
  exact ⟨(get_variant_info_defaults "rs42" ⟨none, none⟩ []).1 rfl rfl,
    (get_variant_info_defaults "rs42" ⟨some [], some ["benign"]⟩ []).2 rfl⟩

/-- C4 counterexample: the claim says a row with a null ER-positive cell is
discarded; the code's `dropna` subset names only Chromosome, Positionb,
EAFc and Overall Breast Cancerd, so such a row is kept. -/
theorem dropna_er_counterexample :
    dropnaRequired [erNullRow] = [erNullRow] ∧ erNullRow.erPositive = none := by
  exact ⟨rfl, rfl⟩

/-- C4 (amended): the loader discards exactly those rows in which any of the
FOUR subset columns — Chromosome, Position, Allele-Frequency,
Overall-Outcome — is null (the two ER indicator columns are NOT required),
keeping every other row unchanged and in order (the result is a sublist of
the input). -/
theorem dropnaRequired_spec (rows : List Row) (r : Row) :
    (r ∈ dropnaRequired rows ↔
      r ∈ rows ∧ r.chromosome ≠ none ∧ r.positionb ≠ none ∧
        r.eafc ≠ none ∧ r.overallBC ≠ none) ∧
    List.Sublist (dropnaRequired rows) rows := by
  constructor
  · simp [dropnaRequired, List.mem_filter, Option.isSome_iff_ne_none,
      and_assoc]
  · exact List.filter_sublist rows

/-- C5: the resolver returns none — and never raises (every caught
exception is the `error` outcome) — on a non-success status, an empty
response body, or a network error/timeout; on a 200 response with a
non-empty body it returns the `id` of the first matching variant only. -/
theorem map_to_rsid_spec (status : ℕ) (body : List RegionEntry)
    (e : RegionEntry) (rest : List RegionEntry) :
    map_to_rsid HttpOutcome.error = none ∧
    (status ≠ 200 → map_to_rsid (HttpOutcome.resp status body) = none) ∧
    map_to_rsid (HttpOutcome.resp status []) = none ∧
    map_to_rsid (HttpOutcome.resp 200 (e :: rest)) = e.id := by
  refine ⟨rfl, fun h => by simp [map_to_rsid, h], ?_, by simp [map_to_rsid]⟩
  by_cases h : status = 200 <;> simp [map_to_rsid, h]

/-- Witness for C5 at a concrete failing status and a concrete two-element
success body. -/
theorem map_to_rsid_spec_witness :
    map_to_rsid (HttpOutcome.resp 500 [⟨some "rs1"⟩]) = none ∧
    map_to_rsid (HttpOutcome.resp 200 [⟨some "rs1"⟩, ⟨some "rs2"⟩]) =
      some "rs1" := by
  exact ⟨(map_to_rsid_spec 500 [⟨some "rs1"⟩] ⟨some "rs1"⟩ []).2.1
      (by decide),
    (map_to_rsid_spec 200 [] ⟨some "rs1"⟩ [⟨some "rs2"⟩]).2.2.2⟩

end BCRisk

namespace BCRisk

/-- C6: whenever no variant annotation is available — the resolver returned
no identifier, or the fetcher returns none for every identifier — the
program displays the distinct no-recommendation state and never any
recommendation text (including the low-risk text). -/
theorem no_recommendation_state (fetch : String → Option VariantInfo)
    (rsid : Option String) (h : rsid = none ∨ ∀ s, fetch s = none) :
    displayRecommendation (variantStep fetch rsid).1 =
      RecDisplay.noRecommendation ∧
    ∀ t, displayRecommendation (variantStep fetch rsid).1 ≠
      RecDisplay.recommended t := by
  have hv : (variantStep fetch rsid).1 = none := by
    rcases h with h | h
    · subst h; rfl
    · cases rsid with
      | none => rfl
      | some s => by_cases hs : s = "" <;> simp [variantStep, hs, h]
  rw [hv]
  exact ⟨rfl, fun t ht => RecDisplay.noConfusion ht⟩

/-- Witness for C6 with a fetcher that finds nothing. -/
theorem no_recommendation_state_witness :
    displayRecommendation (variantStep (fun _ => none) (some "rs99")).1 =
      RecDisplay.noRecommendation :=
  (no_recommendation_state (fun _ => none) (some "rs99")
    (Or.inr fun _ => rfl)).1

/-- C7: two successive resolver calls with the same (chromosome, position)
key issue at most one underlying network call altogether — the second call
is a cache hit — and both calls return identical results. -/
theorem resolveCached_two_calls (net : ℤ × ℤ → Option String)
    (c : RsidCache) (k : ℤ × ℤ) :
    (resolveCached net c k).networkCalls +
      (resolveCached net (resolveCached net c k).cache k).networkCalls ≤ 1 ∧
    (resolveCached net (resolveCached net c k).cache k).result =
      (resolveCached net c k).result := by
  cases h : cacheLookup c k with
  | some v => simp [resolveCached, h]
  | none =>
    have h2 : cacheLookup ((k, net k) :: c) k = some (net k) := by
      simp [cacheLookup]
    simp [resolveCached, h, h2]

/-- C8: with a nonempty loaded dataset, sample indices 0 and rowCount-1 are
both accepted and select a row; any index outside [0, rowCount-1] is
rejected by the bounded input widget, so no row is selected and the
predictor is never invoked for it. -/
theorem sample_index_bounds (pred : List (Option ℚ) → ℚ) (rows : List Row)
    (hne : rows ≠ []) :
    (selectSample rows 0).isSome = true ∧
    (selectSample rows ((rows.length : ℤ) - 1)).isSome = true ∧
    ∀ i : ℤ, (i < 0 ∨ (rows.length : ℤ) - 1 < i) →
      selectSample rows i = none ∧ predictFor pred rows i = none := by
  have hlen : 0 < rows.length := List.length_pos.mpr hne
  refine ⟨?_, ?_, ?_⟩
  · have h0 : number_input 0 ((rows.length : ℤ) - 1) 0 = some 0 := by
      unfold number_input
      rw [if_pos]
      exact ⟨le_refl 0, by omega⟩
    have hg : rows.get? 0 ≠ none := by
      simp only [ne_eq, List.get?_eq_none]
      omega
    simpa [selectSample, h0, Option.isSome_iff_ne_none] using hg
  · have h1 : number_input 0 ((rows.length : ℤ) - 1)
        ((rows.length : ℤ) - 1) = some ((rows.length : ℤ) - 1) := by
      unfold number_input
      rw [if_pos]
      exact ⟨by omega, le_refl _⟩
    have htn : ((rows.length : ℤ) - 1).toNat = rows.length - 1 := by omega
    have hg : rows.get? (rows.length - 1) ≠ none := by
      simp only [ne_eq, List.get?_eq_none]
      omega
    simpa [selectSample, h1, htn, Option.isSome_iff_ne_none] using hg
  · intro i hi
    have hni : number_input 0 ((rows.length : ℤ) - 1) i = none := by
      unfold number_input
      rw [if_neg]
      rintro ⟨ha, hb⟩
      rcases hi with h | h <;> omega
    exact ⟨by simp [selectSample, hni], by simp [predictFor, selectSample, hni]⟩

/-- Witness for C8 on a concrete one-row dataset. -/
theorem sample_index_bounds_witness :
    (selectSample [fullRow] 0).isSome = true ∧
    (selectSample [fullRow] (([fullRow].length : ℤ) - 1)).isSome = true ∧
    selectSample [fullRow] 5 = none := by
  have h := sample_index_bounds (fun _ => 0) [fullRow] (by simp)
  exact ⟨h.1, h.2.1, (h.2.2 5 (by norm_num)).1⟩

/-- C10: when the resolver yields no identifier — Python-falsy `None` or the
empty string — the annotation fetcher is never invoked (zero fetch calls)
and the variant is none. -/
theorem no_fetch_without_rsid (fetch : String → Option VariantInfo)
    (rsid : Option String) (h : rsid = none ∨ rsid = some "") :
    (variantStep fetch rsid).2 = 0 ∧ (variantStep fetch rsid).1 = none := by
  rcases h with h | h <;> subst h <;> simp [variantStep]

/-- Witness for C10 at the empty-string identifier with a fetcher that would
succeed if called. -/
theorem no_fetch_without_rsid_witness :
    (variantStep (fun s => some ⟨s, "g", "HIGH", "e", "c"⟩) (some "")).2 =
      0 :=
  (no_fetch_without_rsid (fun s => some ⟨s, "g", "HIGH", "e", "c"⟩)
    (some "") (Or.inr rfl)).1

end BCRisk

namespace BCRisk

/-- Witness for C1 at a concrete negative score. -/
theorem label_risk_spec_witness : label_risk (-1/2) = "🟩 Low" :=
  (label_risk_spec (-1/2)).2.2.2.2.2 (by norm_num)

end BCRisk
